import Mathlib

/-!
A shallow embedding of the S3 browsing component
(`src/components/s3-browser.tsx`): the listing construction, navigation,
search filter, pagination, selection tracking and export handler, with the
browser's event loop modelled as a step function over UI events.
-/

namespace S3Browser

/-- An object entry of a `ListObjectsV2` response (`Contents`): key and size. -/
structure ObjectEntry where
  Key : String
  Size : Nat
  deriving DecidableEq

/-- A `ListObjectsV2` response as `fetchItems` reads it: `CommonPrefixes`
(folder prefixes) and `Contents` (object entries), each in collaborator
order. -/
structure ListResponse where
  CommonPrefixes : List String
  Contents : List ObjectEntry
  deriving DecidableEq

/-- A typed navigation item (`S3Item` in the source): a folder carries its
full key prefix, a file its full key and size. -/
inductive S3Item where
  | folder (p : String)
  | file (key : String) (size : Nat)
  deriving DecidableEq

/-- The key used for selection and download of an item
(`item.type === 'folder' ? item.Prefix : item.Key`). -/
def S3Item.itemKey : S3Item → String
  | .folder p => p
  | .file k _ => k

/-- The listing built by `fetchItems` (lines 114-117): folders from
`CommonPrefixes` in response order, then files from `Contents` in response
order, a file kept when
`c.Key !== currentPrefix && c.Size! > 0`. -/
def listingOf (resp : ListResponse) (queried : String) : List S3Item :=
  resp.CommonPrefixes.map S3Item.folder
    ++ (resp.Contents.filter
        (fun c => c.Key != queried && decide (0 < c.Size))).map
      (fun c => S3Item.file c.Key c.Size)

/-- The listing as the spec's own words describe it (section 4.1): "folders
first, in the order returned by the collaborator, then files in the order
returned", excluding "any file entry whose key equals the queried prefix
itself" and "any file entry with size 0". Written from the spec, to be
compared with `listingOf`. -/
def listingSpec (resp : ListResponse) (queried : String) : List S3Item :=
  resp.CommonPrefixes.map S3Item.folder
    ++ resp.Contents.filterMap
      (fun c =>
        if c.Key ≠ queried ∧ 0 < c.Size then some (S3Item.file c.Key c.Size)
        else none)

/-- The browsing component's state relevant to the claims. `curPrefix` is the
`prefix` state variable; the normalized `rootFolder` is fixed per session and
passed separately. UI-busy flags (`isLoading`, `isDownloading`), the details
dialog and the upload dialog are omitted: no claim concerns them. -/
structure BrowserState where
  curPrefix : String
  items : List S3Item
  searchQuery : String
  selectedKeys : Finset String
  currentPage : Nat
  itemsPerPage : Nat
  deriving DecidableEq

/-- Removal of the first occurrence of `pat` from a character list;
the list is unchanged when `pat` is empty or absent. -/
def removeFirstAux (pat : List Char) : List Char → List Char
  | [] => []
  | c :: rest =>
      if pat.isPrefixOf (c :: rest) then (c :: rest).drop pat.length
      else c :: removeFirstAux pat rest

/-- JavaScript `s.replace(pat, '')`: removes the first occurrence of `pat`. -/
def replaceFirst (s pat : String) : String :=
  ⟨removeFirstAux pat.data s.data⟩

/-- Substring test on character lists (an empty needle always matches). -/
def containsSub (hay needle : List Char) : Bool :=
  needle.isPrefixOf hay ||
    match hay with
    | [] => false
    | _ :: rest => containsSub rest needle

/-- JavaScript `s.includes(t)`. -/
def jsIncludes (s t : String) : Bool :=
  containsSub s.data t.data

/-- JavaScript `s.toLowerCase()` (character-wise lowering). -/
def lowerStr (s : String) : String :=
  ⟨s.data.map Char.toLower⟩

/-- The display name of an item (lines 229-231): a folder's prefix with the
first occurrence of the current folder prefix removed and the first "/"
removed; a file's key with the first occurrence of the current prefix
removed. -/
def displayName (cur : String) : S3Item → String
  | .folder p => replaceFirst (replaceFirst p cur) "/"
  | .file k _ => replaceFirst k cur

/-- `filteredItems` (lines 226-234): identity for an empty query, else a
case-insensitive substring match of the query against the display name. -/
def filteredItems (st : BrowserState) : List S3Item :=
  if st.searchQuery = "" then st.items
  else st.items.filter
    (fun it => jsIncludes (lowerStr (displayName st.curPrefix it)) (lowerStr st.searchQuery))

/-- `totalPages = Math.ceil(filteredItems.length / itemsPerPage)` (line 237):
ceiling division for the positive page sizes on offer, with no lower bound
of 1. -/
def totalPages (st : BrowserState) : Nat :=
  ((filteredItems st).length + st.itemsPerPage - 1) / st.itemsPerPage

/-- `startIndex = (currentPage - 1) * itemsPerPage` (line 238). -/
def startIndex (st : BrowserState) : Nat :=
  (st.currentPage - 1) * st.itemsPerPage

/-- `paginatedItems = filteredItems.slice(startIndex, endIndex)` (line 240),
where `endIndex = startIndex + itemsPerPage`. -/
def paginatedItems (st : BrowserState) : List S3Item :=
  ((filteredItems st).drop (startIndex st)).take st.itemsPerPage

/-- `areAllVisibleSelected` (line 247): non-empty page, selection size equal
to the page length, and every visible key selected. -/
def areAllVisibleSelected (st : BrowserState) : Bool :=
  decide (0 < (paginatedItems st).length)
    && st.selectedKeys.card == (paginatedItems st).length
    && (paginatedItems st).all (fun it => decide (it.itemKey ∈ st.selectedKeys))

/-- `isAnyVisibleSelected` (line 248). -/
def isAnyVisibleSelected (st : BrowserState) : Bool :=
  (paginatedItems st).any (fun it => decide (it.itemKey ∈ st.selectedKeys))

/-- The tri-state of the select-all control. -/
inductive TriState where
  | all
  | some
  | none
  deriving DecidableEq

/-- The select-all checkbox value (line 322):
`areAllVisibleSelected ? true : isAnyVisibleSelected ? "indeterminate" : false`. -/
def visibleSelectionState (st : BrowserState) : TriState :=
  if areAllVisibleSelected st then .all
  else if isAnyVisibleSelected st then .some
  else .none

/-- `handleItemClick` (lines 145-158), after the DOM-target guard: a folder
with a truthy prefix navigates unless that prefix is currently selected; any
other click only opens the details dialog (no state change here). -/
def handleItemClick (st : BrowserState) (it : S3Item) : BrowserState :=
  match it with
  | .folder p =>
      if p = "" then st
      else if p ∈ st.selectedKeys then st
      else { st with curPrefix := p, searchQuery := "" }
  | .file _ _ => st

/-- `handleBreadcrumbClick` (lines 160-163). -/
def handleBreadcrumbClick (st : BrowserState) (path : String) : BrowserState :=
  { st with curPrefix := path, searchQuery := "" }

/-- `handleSelect` (lines 165-175): add or remove one key. -/
def handleSelect (st : BrowserState) (key : String) (checked : Bool) : BrowserState :=
  { st with selectedKeys :=
      if checked then insert key st.selectedKeys else st.selectedKeys.erase key }

/-- `handleSelectAll` (lines 177-184): `new Set(allVisibleKeys)` when checked,
`new Set()` otherwise. -/
def handleSelectAll (st : BrowserState) (checked : Bool) : BrowserState :=
  if checked then
    { st with selectedKeys := ((paginatedItems st).map S3Item.itemKey).toFinset }
  else { st with selectedKeys := ∅ }

/-- The success path of `fetchItems` (lines 112-118): the item list is
replaced by the fresh listing for the queried prefix and the selection is
cleared. -/
def fetchItemsSuccess (st : BrowserState) (resp : ListResponse) : BrowserState :=
  { st with items := listingOf resp st.curPrefix, selectedKeys := ∅ }

/-- What one export attempt reports. -/
inductive ExportOutcome where
  | noop
  | completed (itemCount : Nat)
  | failed
  deriving DecidableEq

/-- The `{key, kind}` request list (lines 190-195): every current item whose
selection key is in `selectedKeys`, in item-list order; `true` marks a
folder. -/
def itemsToDownload (st : BrowserState) : List (String × Bool) :=
  (st.items.filter (fun it => decide (it.itemKey ∈ st.selectedKeys))).map
    (fun it => (it.itemKey, match it with | .folder _ => true | .file _ _ => false))

/-- `handleDownloadSelected` (lines 186-214), with the collaborator
`getItemsAsZip` outcome as a parameter. An empty selection returns before any
work; on success the selection is cleared and the item count reported; on
failure the state is untouched. -/
def handleDownloadSelected (st : BrowserState) (collab : Except String String) :
    BrowserState × ExportOutcome :=
  if st.selectedKeys.card = 0 then (st, .noop)
  else
    match collab with
    | .ok _ => ({ st with selectedKeys := ∅ }, .completed (itemsToDownload st).length)
    | .error _ => (st, .failed)

/-- The prefix relative to the root folder (line 223):
`prefix.startsWith(rootFolder) ? prefix.slice(rootFolder.length) : prefix`. -/
def relativeOfRoot (root cur : String) : String :=
  if root.isPrefixOf cur then cur.drop root.length else cur

/-- `breadcrumbParts` (line 224): `'home'` then the non-empty "/"-separated
segments of the relative prefix. -/
def breadcrumbParts (root cur : String) : List String :=
  "home" :: ((relativeOfRoot root cur).splitOn "/").filter (fun s => s ≠ "")

/-- A breadcrumb target (lines 259-263):
`rootFolder + (index === 0 ? '' : parts.slice(1, index+1).join('/') + '/')`. -/
def fullPath (root cur : String) (i : Nat) : String :=
  root ++
    (if i = 0 then ""
     else String.intercalate "/" (((breadcrumbParts root cur).drop 1).take i) ++ "/")

/-- One UI event of the browsing session. Listing responses arrive as their
own events: `fetchCompleted` for the navigation-triggered fetch,
`uploadComplete` for the refresh after an upload (lines 216-220). -/
inductive Event where
  | itemClick (it : S3Item)
  | crumbClick (i : Nat)
  | setSearch (q : String)
  | setPerPage (n : Nat)
  | select (key : String) (checked : Bool)
  | selectAll (checked : Bool)
  | pagePrev
  | pageNext
  | pageGoto (i : Nat)
  | uploadComplete (resp : ListResponse)
  | fetchCompleted (resp : ListResponse)

/-- The page-reset effect (lines 242-245): after a step in which
`searchQuery`, `prefix` or `itemsPerPage` changed, `currentPage` becomes 1. -/
def pageResetIfChanged (prev next : BrowserState) : BrowserState :=
  if next.searchQuery ≠ prev.searchQuery ∨ next.curPrefix ≠ prev.curPrefix
      ∨ next.itemsPerPage ≠ prev.itemsPerPage then
    { next with currentPage := 1 }
  else next

/-- A page-number link's target (lines 426-436). -/
def pageNum (tp cur i : Nat) : Nat :=
  if tp ≤ 5 then i + 1
  else if cur ≤ 3 then i + 1
  else if tp - 2 ≤ cur then tp - 4 + i
  else cur - 2 + i

/-- The event's handler (pagination controls exist only when the footer is
rendered: `filteredItems.length > 10` at line 388, `totalPages > 1` at line
409, and the links' own guards). -/
def handle (root : String) (st : BrowserState) (e : Event) : BrowserState :=
  match e with
  | .itemClick it => handleItemClick st it
  | .crumbClick i => handleBreadcrumbClick st (fullPath root st.curPrefix i)
  | .setSearch q => { st with searchQuery := q }
  | .setPerPage n => { st with itemsPerPage := n }
  | .select k c => handleSelect st k c
  | .selectAll c => handleSelectAll st c
  | .pagePrev =>
      if 10 < (filteredItems st).length ∧ 1 < totalPages st ∧ 1 < st.currentPage then
        { st with currentPage := st.currentPage - 1 }
      else st
  | .pageNext =>
      if 10 < (filteredItems st).length ∧ 1 < totalPages st
          ∧ st.currentPage < totalPages st then
        { st with currentPage := st.currentPage + 1 }
      else st
  | .pageGoto i =>
      if 10 < (filteredItems st).length ∧ 1 < totalPages st
          ∧ i < min 5 (totalPages st) then
        { st with currentPage := pageNum (totalPages st) st.currentPage i }
      else st
  | .uploadComplete resp => fetchItemsSuccess st resp
  | .fetchCompleted resp => fetchItemsSuccess st resp

/-- One dispatch-and-render step: the handler runs, then the synchronous
page-reset effect observes which of its dependencies changed. -/
def step (root : String) (st : BrowserState) (e : Event) : BrowserState :=
  pageResetIfChanged st (handle root st e)

/-- The initial state (lines 71-81): `prefix = rootFolder`, empty item list,
empty query, empty selection, page 1, 10 items per page. -/
def initState (root : String) : BrowserState :=
  { curPrefix := root, items := [], searchQuery := "", selectedKeys := ∅,
    currentPage := 1, itemsPerPage := 10 }

/-- Run a sequence of events from the initial state. -/
def run (root : String) (es : List Event) : BrowserState :=
  es.foldl (step root) (initState root)

/-- `a` is a string prefix of `b`. -/
def strPrefix (a b : String) : Prop := ∃ t, b = a ++ t

/-- Which events the browser UI can deliver in a state: row clicks hit
rendered (paginated) items, the page-size select offers four fixed values,
and — the store-client assumption — a delimited listing's common prefixes
extend the queried prefix. -/
def okEvent (st : BrowserState) : Event → Prop
  | .itemClick it => it ∈ paginatedItems st
  | .setPerPage n => n = 10 ∨ n = 25 ∨ n = 50 ∨ n = 100
  | .uploadComplete resp => ∀ q ∈ resp.CommonPrefixes, strPrefix st.curPrefix q
  | .fetchCompleted resp => ∀ q ∈ resp.CommonPrefixes, strPrefix st.curPrefix q
  | _ => True

/-- The states a browsing session can reach from its initial state. -/
inductive Reachable (root : String) : BrowserState → Prop where
  | init : Reachable root (initState root)
  | next {st : BrowserState} {e : Event} :
      Reachable root st → okEvent st e → Reachable root (step root st e)

/-- A folder item's prefix extends `root`; files are unconstrained. -/
def folderExtendsRoot (root : String) : S3Item → Prop
  | .folder p => strPrefix root p
  | .file _ _ => True

/-- The navigation invariant: the current prefix extends the root, and every
folder item of the current listing extends the root. -/
def NavInv (root : String) (st : BrowserState) : Prop :=
  strPrefix root st.curPrefix ∧ ∀ it ∈ st.items, folderExtendsRoot root it

/-- A listing response of eleven size-1 files, enough to fill a second page. -/
def respEleven : ListResponse :=
  ⟨[], [⟨"f01", 1⟩, ⟨"f02", 1⟩, ⟨"f03", 1⟩, ⟨"f04", 1⟩, ⟨"f05", 1⟩, ⟨"f06", 1⟩,
    ⟨"f07", 1⟩, ⟨"f08", 1⟩, ⟨"f09", 1⟩, ⟨"f10", 1⟩, ⟨"f11", 1⟩]⟩

/-- `respEleven` plus one more file, as an upload refresh would return. -/
def respTwelve : ListResponse :=
  ⟨[], respEleven.Contents ++ [⟨"g12", 1⟩]⟩

/-- A session state with two files listed, both selected, then the search
narrowed to one of them: every visible key is selected yet the selection
holds one more key. -/
def stTriState : BrowserState :=
  run "" [.fetchCompleted ⟨[], [⟨"apple", 1⟩, ⟨"banana", 2⟩]⟩,
    .select "apple" true, .select "banana" true, .setSearch "apple"]

/-- A session state with one folder selected, used to examine folder clicks. -/
def stSelectedFolder : BrowserState :=
  { curPrefix := "docs/", items := [.folder "docs/img/", .file "docs/a.txt" 5],
    searchQuery := "", selectedKeys := {"docs/img/"}, currentPage := 1,
    itemsPerPage := 10 }

theorem strPrefix_refl (a : String) : strPrefix a a :=
  ⟨"", by simp⟩

theorem strPrefix_trans {a b c : String} (h1 : strPrefix a b) (h2 : strPrefix b c) :
    strPrefix a c := by
  obtain ⟨t, rfl⟩ := h1
  obtain ⟨u, rfl⟩ := h2
  exact ⟨t ++ u, by rw [String.append_assoc]⟩

theorem pageResetIfChanged_curPrefix (a b : BrowserState) :
    (pageResetIfChanged a b).curPrefix = b.curPrefix := by
  unfold pageResetIfChanged; split <;> rfl

theorem pageResetIfChanged_items (a b : BrowserState) :
    (pageResetIfChanged a b).items = b.items := by
  unfold pageResetIfChanged; split <;> rfl

theorem pageResetIfChanged_selectedKeys (a b : BrowserState) :
    (pageResetIfChanged a b).selectedKeys = b.selectedKeys := by
  unfold pageResetIfChanged; split <;> rfl

theorem pageResetIfChanged_currentPage (a b : BrowserState) :
    (pageResetIfChanged a b).currentPage = 1
      ∨ (pageResetIfChanged a b).currentPage = b.currentPage := by
  unfold pageResetIfChanged; split
  · exact Or.inl rfl
  · exact Or.inr rfl

theorem mem_listingOf {resp : ListResponse} {queried : String} {it : S3Item}
    (h : it ∈ listingOf resp queried) :
    (∃ p ∈ resp.CommonPrefixes, it = .folder p) ∨ ∃ k s, it = .file k s := by
  unfold listingOf at h
  rcases List.mem_append.1 h with h | h
  · obtain ⟨p, hp, rfl⟩ := List.mem_map.1 h
    exact Or.inl ⟨p, hp, rfl⟩
  · obtain ⟨c, _, rfl⟩ := List.mem_map.1 h
    exact Or.inr ⟨c.Key, c.Size, rfl⟩

theorem paginated_subset {st : BrowserState} {it : S3Item}
    (h : it ∈ paginatedItems st) : it ∈ st.items := by
  unfold paginatedItems at h
  have h1 := List.drop_subset (startIndex st) (filteredItems st)
    (List.take_subset st.itemsPerPage _ h)
  unfold filteredItems at h1
  split at h1
  · exact h1
  · exact List.filter_subset' st.items h1

theorem handleItemClick_currentPage (st : BrowserState) (it : S3Item) :
    (handleItemClick st it).currentPage = st.currentPage := by
  unfold handleItemClick
  cases it <;> simp only
  split
  · rfl
  · split <;> rfl

theorem pageNum_pos {tp cur i : Nat} : 1 ≤ pageNum tp cur i := by
  unfold pageNum
  split
  · omega
  · split
    · omega
    · split <;> omega

theorem handle_page_pos {root : String} {st : BrowserState} {e : Event}
    (h : 1 ≤ st.currentPage) : 1 ≤ (handle root st e).currentPage := by
  cases e with
  | itemClick it =>
      simp only [handle]
      rw [handleItemClick_currentPage]
      exact h
  | crumbClick i => exact h
  | setSearch q => exact h
  | setPerPage n => exact h
  | select k c => exact h
  | selectAll c =>
      simp only [handle, handleSelectAll]
      split <;> exact h
  | pagePrev =>
      simp only [handle]
      split
      · next hc =>
          show 1 ≤ st.currentPage - 1
          omega
      · exact h
  | pageNext =>
      simp only [handle]
      split
      · next hc =>
          show 1 ≤ st.currentPage + 1
          omega
      · exact h
  | pageGoto i =>
      simp only [handle]
      split
      · show 1 ≤ pageNum (totalPages st) st.currentPage i
        exact pageNum_pos
      · exact h
  | uploadComplete resp => exact h
  | fetchCompleted resp => exact h

theorem step_page_pos {root : String} {st : BrowserState} {e : Event}
    (h : 1 ≤ st.currentPage) : 1 ≤ (step root st e).currentPage := by
  unfold step
  rcases pageResetIfChanged_currentPage st (handle root st e) with h1 | h1 <;> rw [h1]
  exact handle_page_pos h

theorem navInv_of_fields {root : String} {a b : BrowserState}
    (hc : a.curPrefix = b.curPrefix) (hi : a.items = b.items)
    (h : NavInv root b) : NavInv root a :=
  ⟨by rw [hc]; exact h.1, by rw [hi]; exact h.2⟩

theorem handle_navInv {root : String} {st : BrowserState} {e : Event}
    (hok : okEvent st e) (ih : NavInv root st) : NavInv root (handle root st e) := by
  cases e with
  | itemClick it =>
      cases it with
      | folder p =>
          simp only [handle, handleItemClick]
          split
          · exact ih
          · split
            · exact ih
            · refine ⟨?_, ih.2⟩
              have hmem : S3Item.folder p ∈ st.items := paginated_subset hok
              exact ih.2 _ hmem
      | file k s => exact ih
  | crumbClick i =>
      simp only [handle, handleBreadcrumbClick, fullPath]
      exact ⟨⟨_, rfl⟩, ih.2⟩
  | setSearch q => exact ⟨ih.1, ih.2⟩
  | setPerPage n => exact ⟨ih.1, ih.2⟩
  | select k c => exact ⟨ih.1, ih.2⟩
  | selectAll c =>
      simp only [handle, handleSelectAll]
      split
      · exact ⟨ih.1, ih.2⟩
      · exact ⟨ih.1, ih.2⟩
  | pagePrev =>
      simp only [handle]
      split
      · exact ⟨ih.1, ih.2⟩
      · exact ih
  | pageNext =>
      simp only [handle]
      split
      · exact ⟨ih.1, ih.2⟩
      · exact ih
  | pageGoto i =>
      simp only [handle]
      split
      · exact ⟨ih.1, ih.2⟩
      · exact ih
  | uploadComplete resp =>
      refine ⟨ih.1, ?_⟩
      intro it hmem
      rcases mem_listingOf hmem with ⟨p, hp, rfl⟩ | ⟨k, s, rfl⟩
      · exact strPrefix_trans ih.1 (hok p hp)
      · trivial
  | fetchCompleted resp =>
      refine ⟨ih.1, ?_⟩
      intro it hmem
      rcases mem_listingOf hmem with ⟨p, hp, rfl⟩ | ⟨k, s, rfl⟩
      · exact strPrefix_trans ih.1 (hok p hp)
      · trivial

theorem reachable_navInv {root : String} {st : BrowserState}
    (h : Reachable root st) : NavInv root st := by
  induction h with
  | init =>
      refine ⟨strPrefix_refl root, ?_⟩
      intro it hmem
      simp [initState] at hmem
  | next hr hok ih =>
      exact navInv_of_fields (pageResetIfChanged_curPrefix _ _)
        (pageResetIfChanged_items _ _) (handle_navInv hok ih)

theorem reachable_page_pos {root : String} {st : BrowserState}
    (h : Reachable root st) : 1 ≤ st.currentPage := by
  induction h with
  | init => exact le_refl 1
  | next hr hok ih => exact step_page_pos ih

theorem pageResetIfChanged_eq_of_deps (a b : BrowserState)
    (h1 : b.searchQuery = a.searchQuery) (h2 : b.curPrefix = a.curPrefix)
    (h3 : b.itemsPerPage = a.itemsPerPage) :
    pageResetIfChanged a b = b := by
  unfold pageResetIfChanged
  split
  · next hcond =>
      rcases hcond with h | h | h
      · exact absurd h1 h
      · exact absurd h2 h
      · exact absurd h3 h
  · rfl

/-- C1: for every store-client response, the listing `fetchItems` builds is
exactly what the spec describes — folder entries in collaborator order, then
file entries in collaborator order, a file kept iff its key differs from the
queried prefix and its size is greater than 0; no other reordering or
filtering. -/
theorem listing_matches_spec (resp : ListResponse) (queried : String) :
    listingOf resp queried = listingSpec resp queried := by
  unfold listingOf listingSpec
  congr 1
  induction resp.Contents with
  | nil => rfl
  | cons c cs ih =>
      by_cases h1 : c.Key = queried
      · simp [List.filter_cons, List.filterMap_cons, h1, ih]
      · by_cases h2 : 0 < c.Size
        · simp [List.filter_cons, List.filterMap_cons, h1, h2, ih]
        · simp [List.filter_cons, List.filterMap_cons, h1, h2, ih]

/-- C2: along every sequence of navigation transitions (folder clicks and
breadcrumb jumps, with the store client returning only common prefixes that
extend the queried prefix), the current prefix always has the root prefix as
a string prefix. -/
theorem currentPrefix_extends_rootPrefix {root : String} {st : BrowserState}
    (h : Reachable root st) : strPrefix root st.curPrefix :=
  (reachable_navInv h).1

/-- Witness for C2: a concrete session under root "docs/" that receives a
listing holding the folder "docs/img/" and clicks it. -/
theorem currentPrefix_extends_rootPrefix_witness :
    strPrefix "docs/"
      ((step "docs/"
          (step "docs/" (initState "docs/") (.fetchCompleted ⟨["docs/img/"], []⟩))
          (.itemClick (.folder "docs/img/"))).curPrefix) :=
  currentPrefix_extends_rootPrefix
    (Reachable.next
      (Reachable.next Reachable.init
        (by intro q hq
            simp only [List.mem_singleton] at hq
            subst hq
            exact ⟨"img/", by decide⟩))
      (by show S3Item.folder "docs/img/" ∈ paginatedItems _
          decide))

/-- C3: after every completed listing fetch — the success path of each
navigation — the selection set is empty. -/
theorem navigation_clears_selection (root : String) (st : BrowserState)
    (resp : ListResponse) :
    (step root st (.fetchCompleted resp)).selectedKeys = ∅ := by
  unfold step
  rw [pageResetIfChanged_selectedKeys]
  rfl

/-- C4 counterexample: already in the reachable initial state (an empty
listing) `totalPages` is 0 — not `max 1 (ceil(totalFiltered/pageSize))`,
which is 1 — and `pageIndex = 1` exceeds `totalPages`, so `pageIndex` is not
clamped into `[1, totalPages]`. -/
theorem pageIndex_clamp_cex :
    Reachable "" (initState "")
    ∧ totalPages (initState "") = 0
    ∧ (initState "").currentPage = 1
    ∧ ¬ (initState "").currentPage ≤ totalPages (initState "")
    ∧ totalPages (initState "") ≠
        max 1 (((filteredItems (initState "")).length
          + (initState "").itemsPerPage - 1) / (initState "").itemsPerPage) :=
  ⟨Reachable.init, by decide, rfl, by decide, by decide⟩

/-- C4 amended: `totalPages` is recomputed as `ceil(totalFiltered/pageSize)`
with no lower bound of 1, and `pageIndex` is never clamped against it; in
every reachable state `pageIndex` is at least 1, but it can exceed
`totalPages` (an empty filtered list gives `totalPages = 0 < pageIndex`). -/
theorem pageIndex_at_least_one {root : String} {st : BrowserState}
    (h : Reachable root st) : 1 ≤ st.currentPage :=
  reachable_page_pos h

/-- Witness for the amended C4 at the initial state. -/
theorem pageIndex_at_least_one_witness : 1 ≤ (initState "").currentPage :=
  pageIndex_at_least_one (@Reachable.init "")

/-- C5: checking select-all replaces any prior selection with exactly the
set of keys of the current page's visible (filtered and paginated) items;
unchecking it empties the selection. -/
theorem selectAll_visible_replaces (st : BrowserState) (prior : Finset String) :
    (handleSelectAll { st with selectedKeys := prior } true).selectedKeys
      = ((paginatedItems st).map S3Item.itemKey).toFinset
    ∧ (handleSelectAll { st with selectedKeys := prior } false).selectedKeys = ∅ :=
  ⟨rfl, rfl⟩

/-- C6 counterexample: in the reachable state `stTriState` every visible key
is selected and the visible set is non-empty, yet the tri-state is `some`,
not `all`: the code additionally compares the selection's size with the page
length, and the selection still holds a key hidden by the search filter. -/
theorem visibleSelectionState_cex :
    paginatedItems stTriState ≠ []
    ∧ (∀ it ∈ paginatedItems stTriState, S3Item.itemKey it ∈ stTriState.selectedKeys)
    ∧ visibleSelectionState stTriState ≠ TriState.all
    ∧ visibleSelectionState stTriState = TriState.some := by
  decide

/-- C6 amended: with distinct visible keys, `visibleSelectionState` is `all`
iff the visible set is non-empty and the selection equals exactly the visible
key set (a selection strictly containing every visible key yields `some`);
`some` iff not in the `all` condition and at least one visible key is
selected; `none` iff no visible key is selected. -/
theorem visibleSelectionState_characterization (st : BrowserState)
    (hnd : ((paginatedItems st).map S3Item.itemKey).Nodup) :
    (visibleSelectionState st = TriState.all ↔
      paginatedItems st ≠ []
        ∧ st.selectedKeys = ((paginatedItems st).map S3Item.itemKey).toFinset)
    ∧ (visibleSelectionState st = TriState.some ↔
      ¬ (paginatedItems st ≠ []
          ∧ st.selectedKeys = ((paginatedItems st).map S3Item.itemKey).toFinset)
        ∧ ∃ it ∈ paginatedItems st, S3Item.itemKey it ∈ st.selectedKeys)
    ∧ (visibleSelectionState st = TriState.none ↔
      ∀ it ∈ paginatedItems st, S3Item.itemKey it ∉ st.selectedKeys) := by
  have hall : areAllVisibleSelected st = true ↔
      (paginatedItems st ≠ []
        ∧ st.selectedKeys = ((paginatedItems st).map S3Item.itemKey).toFinset) := by
    constructor
    · intro h
      rw [areAllVisibleSelected] at h
      simp only [Bool.and_eq_true, decide_eq_true_eq, beq_iff_eq,
        List.all_eq_true] at h
      obtain ⟨⟨hlen, hcard⟩, hmem⟩ := h
      refine ⟨List.ne_nil_of_length_pos hlen, ?_⟩
      have hsub : ((paginatedItems st).map S3Item.itemKey).toFinset ⊆ st.selectedKeys := by
        intro k hk
        rw [List.mem_toFinset] at hk
        obtain ⟨it, hit, rfl⟩ := List.mem_map.1 hk
        exact hmem it hit
      have hle : st.selectedKeys.card
          ≤ ((paginatedItems st).map S3Item.itemKey).toFinset.card := by
        rw [List.toFinset_card_of_nodup hnd, List.length_map]
        exact le_of_eq hcard
      exact (Finset.eq_of_subset_of_card_le hsub hle).symm
    · rintro ⟨hne, hsel⟩
      rw [areAllVisibleSelected]
      simp only [Bool.and_eq_true, decide_eq_true_eq, beq_iff_eq,
        List.all_eq_true]
      refine ⟨⟨List.length_pos.2 hne, ?_⟩, ?_⟩
      · rw [hsel, List.toFinset_card_of_nodup hnd, List.length_map]
      · intro it hit
        rw [hsel, List.mem_toFinset]
        exact List.mem_map_of_mem _ hit
  have hany : isAnyVisibleSelected st = true ↔
      ∃ it ∈ paginatedItems st, S3Item.itemKey it ∈ st.selectedKeys := by
    rw [isAnyVisibleSelected]
    simp [List.any_eq_true]
  refine ⟨?_, ?_, ?_⟩
  · rw [← hall]
    unfold visibleSelectionState
    by_cases hA : areAllVisibleSelected st = true
    · simp [hA]
    · rw [if_neg hA]
      constructor
      · intro h
        split at h <;> exact absurd h (by simp)
      · intro h
        exact absurd h hA
  · by_cases hA : areAllVisibleSelected st = true
    · have hc := hall.1 hA
      constructor
      · intro h
        unfold visibleSelectionState at h
        rw [if_pos hA] at h
        exact absurd h (by simp)
      · rintro ⟨hn, _⟩
        exact absurd hc hn
    · constructor
      · intro h
        refine ⟨fun hcond => hA (hall.2 hcond), ?_⟩
        unfold visibleSelectionState at h
        rw [if_neg hA] at h
        by_cases hS : isAnyVisibleSelected st = true
        · exact hany.1 hS
        · rw [if_neg hS] at h
          exact absurd h (by simp)
      · rintro ⟨_, hex⟩
        unfold visibleSelectionState
        rw [if_neg hA, if_pos (hany.2 hex)]
  · by_cases hA : areAllVisibleSelected st = true
    · have hc := hall.1 hA
      constructor
      · intro h
        unfold visibleSelectionState at h
        rw [if_pos hA] at h
        exact absurd h (by simp)
      · intro hnone
        exfalso
        obtain ⟨it, hit⟩ := List.exists_mem_of_ne_nil _ hc.1
        refine hnone it hit ?_
        rw [hc.2, List.mem_toFinset]
        exact List.mem_map_of_mem _ hit
    · by_cases hS : isAnyVisibleSelected st = true
      · constructor
        · intro h
          unfold visibleSelectionState at h
          rw [if_neg hA, if_pos hS] at h
          exact absurd h (by simp)
        · intro hnone
          obtain ⟨it, hit, hsel⟩ := hany.1 hS
          exact absurd hsel (hnone it hit)
      · constructor
        · intro _ it hit hsel
          exact hS (hany.2 ⟨it, hit, hsel⟩)
        · intro _
          unfold visibleSelectionState
          rw [if_neg hA, if_neg hS]

/-- Witness for the amended C6 at the reachable state `stTriState`. -/
theorem visibleSelectionState_characterization_witness :
    (visibleSelectionState stTriState = TriState.all ↔
      paginatedItems stTriState ≠ []
        ∧ stTriState.selectedKeys
            = ((paginatedItems stTriState).map S3Item.itemKey).toFinset)
    ∧ (visibleSelectionState stTriState = TriState.some ↔
      ¬ (paginatedItems stTriState ≠ []
          ∧ stTriState.selectedKeys
              = ((paginatedItems stTriState).map S3Item.itemKey).toFinset)
        ∧ ∃ it ∈ paginatedItems stTriState,
            S3Item.itemKey it ∈ stTriState.selectedKeys)
    ∧ (visibleSelectionState stTriState = TriState.none ↔
      ∀ it ∈ paginatedItems stTriState,
        S3Item.itemKey it ∉ stTriState.selectedKeys) :=
  visibleSelectionState_characterization stTriState (by decide)

/-- C7 counterexample: after paging to page 2 of eleven filtered items, an
upload refresh changes the raw item list at the same prefix, query and page
size; the page index stays 2 instead of resetting to 1. -/
theorem pageIndex_reset_cex :
    (run "" [.fetchCompleted respEleven, .pageNext]).currentPage = 2
    ∧ (run "" [.fetchCompleted respEleven, .pageNext, .uploadComplete respTwelve]).items
        ≠ (run "" [.fetchCompleted respEleven, .pageNext]).items
    ∧ (run "" [.fetchCompleted respEleven, .pageNext, .uploadComplete respTwelve]).searchQuery
        = (run "" [.fetchCompleted respEleven, .pageNext]).searchQuery
    ∧ (run "" [.fetchCompleted respEleven, .pageNext, .uploadComplete respTwelve]).itemsPerPage
        = (run "" [.fetchCompleted respEleven, .pageNext]).itemsPerPage
    ∧ (run "" [.fetchCompleted respEleven, .pageNext, .uploadComplete respTwelve]).curPrefix
        = (run "" [.fetchCompleted respEleven, .pageNext]).curPrefix
    ∧ (run "" [.fetchCompleted respEleven, .pageNext, .uploadComplete respTwelve]).currentPage
        = 2 := by
  decide

/-- C7 amended: a change to the search query or to the page size resets the
page index to 1 before the next slicing; a refresh of the raw item list at
the same prefix leaves the page index unchanged; manual page navigation
within bounds moves to the adjacent page and otherwise leaves the index
unchanged, never resetting it. -/
theorem pageIndex_reset_triggers (root : String) (st : BrowserState)
    (q : String) (n : Nat) (resp : ListResponse)
    (hq : q ≠ st.searchQuery) (hn : n ≠ st.itemsPerPage) :
    (step root st (.setSearch q)).currentPage = 1
    ∧ (step root st (.setPerPage n)).currentPage = 1
    ∧ (step root st (.uploadComplete resp)).currentPage = st.currentPage
    ∧ ((step root st .pageNext).currentPage = st.currentPage + 1
        ∨ (step root st .pageNext).currentPage = st.currentPage)
    ∧ ((step root st .pagePrev).currentPage = st.currentPage - 1
        ∨ (step root st .pagePrev).currentPage = st.currentPage) := by
  refine ⟨?_, ?_, ?_, ?_, ?_⟩
  · show (pageResetIfChanged st { st with searchQuery := q }).currentPage = 1
    unfold pageResetIfChanged
    rw [if_pos (Or.inl hq)]
  · show (pageResetIfChanged st { st with itemsPerPage := n }).currentPage = 1
    unfold pageResetIfChanged
    rw [if_pos (Or.inr (Or.inr hn))]
  · show (pageResetIfChanged st (fetchItemsSuccess st resp)).currentPage
      = st.currentPage
    rw [pageResetIfChanged_eq_of_deps st (fetchItemsSuccess st resp) rfl rfl rfl]
    rfl
  · simp only [step, handle]
    split
    · rw [pageResetIfChanged_eq_of_deps st
        { st with currentPage := st.currentPage + 1 } rfl rfl rfl]
      exact Or.inl rfl
    · rw [pageResetIfChanged_eq_of_deps st st rfl rfl rfl]
      exact Or.inr rfl
  · simp only [step, handle]
    split
    · rw [pageResetIfChanged_eq_of_deps st
        { st with currentPage := st.currentPage - 1 } rfl rfl rfl]
      exact Or.inl rfl
    · rw [pageResetIfChanged_eq_of_deps st st rfl rfl rfl]
      exact Or.inr rfl

/-- Witness for the amended C7 at the initial state, with a changed query, a
changed page size and an empty refresh response. -/
theorem pageIndex_reset_triggers_witness :
    (step "" (initState "") (.setSearch "x")).currentPage = 1
    ∧ (step "" (initState "") (.setPerPage 25)).currentPage = 1
    ∧ (step "" (initState "") (.uploadComplete ⟨[], []⟩)).currentPage
        = (initState "").currentPage
    ∧ ((step "" (initState "") .pageNext).currentPage = (initState "").currentPage + 1
        ∨ (step "" (initState "") .pageNext).currentPage = (initState "").currentPage)
    ∧ ((step "" (initState "") .pagePrev).currentPage = (initState "").currentPage - 1
        ∨ (step "" (initState "") .pagePrev).currentPage = (initState "").currentPage) :=
  pageIndex_reset_triggers "" (initState "") "x" 25 ⟨[], []⟩ (by decide) (by decide)

/-- C8 counterexample: with an empty selection the export handler returns
silently — outcome `noop` and an untouched state, not a reported export
failure. -/
theorem export_empty_selection_cex :
    handleDownloadSelected (initState "") (Except.ok "archive")
        = (initState "", ExportOutcome.noop)
    ∧ ExportOutcome.noop ≠ ExportOutcome.failed := by
  decide

/-- C8 amended: an export attempted with an empty selection is a silent
no-op — the handler returns before assembling a request list or calling the
collaborator, reporting no error and changing no state. -/
theorem export_empty_selection_noop (st : BrowserState)
    (collab : Except String String) (h : st.selectedKeys.card = 0) :
    handleDownloadSelected st collab = (st, ExportOutcome.noop) := by
  unfold handleDownloadSelected
  rw [if_pos h]

/-- Witness for the amended C8 at the initial state. -/
theorem export_empty_selection_noop_witness :
    handleDownloadSelected (initState "") (Except.error "unreachable")
      = (initState "", ExportOutcome.noop) :=
  export_empty_selection_noop (initState "") (Except.error "unreachable") (by decide)

/-- C9: for a non-empty selection, a successful archive call clears the
selection (and reports the request-list count); a failed one leaves the
entire state, selection included, exactly as it was. -/
theorem export_selection_outcomes (st : BrowserState)
    (h : st.selectedKeys.card ≠ 0) :
    (∀ z : String,
      (handleDownloadSelected st (Except.ok z)).1.selectedKeys = ∅
        ∧ (handleDownloadSelected st (Except.ok z)).2
            = ExportOutcome.completed (itemsToDownload st).length)
    ∧ ∀ msg : String,
        handleDownloadSelected st (Except.error msg) = (st, ExportOutcome.failed) := by
  refine ⟨fun z => ?_, fun msg => ?_⟩
  · unfold handleDownloadSelected
    rw [if_neg h]
    exact ⟨rfl, rfl⟩
  · unfold handleDownloadSelected
    rw [if_neg h]

/-- Witness for C9 at a state with one selected folder. -/
theorem export_selection_outcomes_witness :
    ((handleDownloadSelected stSelectedFolder (Except.ok "archive")).1.selectedKeys = ∅
      ∧ (handleDownloadSelected stSelectedFolder (Except.ok "archive")).2
          = ExportOutcome.completed (itemsToDownload stSelectedFolder).length)
    ∧ handleDownloadSelected stSelectedFolder (Except.error "net")
        = (stSelectedFolder, ExportOutcome.failed) := by
  have h := export_selection_outcomes stSelectedFolder (by decide)
  exact ⟨h.1 "archive", h.2 "net"⟩

/-- C10: clicking a folder whose prefix is currently in the selection does
not navigate: the whole state — current prefix, search query and item list
included — is unchanged. -/
theorem selected_folder_click_no_nav (root : String) (st : BrowserState)
    (p : String) (h : p ∈ st.selectedKeys) :
    step root st (.itemClick (.folder p)) = st := by
  have hclick : handleItemClick st (.folder p) = st := by
    simp only [handleItemClick]
    by_cases hp : p = ""
    · rw [if_pos hp]
    · rw [if_neg hp, if_pos h]
  simp only [step, handle, hclick]
  exact pageResetIfChanged_eq_of_deps st st rfl rfl rfl

/-- Witness for C10: clicking the selected folder "docs/img/". -/
theorem selected_folder_click_no_nav_witness :
    step "docs/" stSelectedFolder (.itemClick (.folder "docs/img/"))
      = stSelectedFolder :=
  selected_folder_click_no_nav "docs/" stSelectedFolder "docs/img/" (by decide)

end S3Browser
